import Mathlib

/-!
Shallow embedding of `src/src/components/ComprehensiveStudy.tsx`
(animemaihatsu/nihongo_master11041930): the quiz progression state machine of
the comprehensive-study screen, together with its hard-coded lesson data.

Modelling conventions:
* React `useState` fields become the fields of `SessionState`; each UI event
  handler becomes a total function on `SessionState`.
* JavaScript numbers holding `lives` and `score` are modelled as `Int`
  (so that the `lives - 1` decrement is not silently truncated).
* An operation is modelled at the level of the user interaction that can
  actually fire it: a button that the component does not render (game-over
  screen, wrong question variant) or renders with `disabled` cannot deliver a
  click, so the corresponding guard is part of the operation.  Each guard is
  annotated with the source line it comes from.
* `navigate('/')` (leaving the screen) is modelled by the `navigated` flag;
  once it is set, the component is unmounted and no further event reaches it.
* Word objects are compared by JavaScript object identity
  (`orderedWords.includes(word)`); module-level word objects are identified
  by their position `(lessonIdx, questionIdx, wordIdx)` in the `lessons`
  table, so `orderedWords` is modelled as a list of such triples.
-/

/-- `sentence: {prefix?, suffix?}` of the TS `Question` interface
(fields renamed `pre`/`suf`). -/
structure Sentence where
  pre : Option String
  suf : Option String
deriving DecidableEq

/-- The `type` tag of the TS `Question` interface:
`'choice' | 'translation' | 'dialogue' | 'word-order' | 'video-choice'`. -/
inductive QKind
  | choice
  | translation
  | dialogue
  | wordOrder
  | videoChoice
deriving DecidableEq

/-- `{ text: string; order: number }` word entries of word-order questions. -/
structure Word where
  text : String
  order : Nat
deriving DecidableEq

/-- The TS `correct: string | number` union field. -/
inductive CorrectVal
  | idx (n : Nat)
  | str (s : String)
deriving DecidableEq

/-- The TS `Question` interface (ComprehensiveStudy.tsx lines 5-20);
optional TS fields become `Option`. -/
structure Question where
  kind : QKind
  question : String
  context : Option String
  options : Option (List String)
  correct : CorrectVal
  explanation : String
  hint : Option String
  words : Option (List Word)
  audio : Option String
  video : Option String
  sentence : Option Sentence
deriving DecidableEq

/-- A lesson of the hard-coded repository. -/
structure Lesson where
  id : Nat
  title : String
  questions : List Question
deriving DecidableEq

/-- The hard-coded lesson repository (ComprehensiveStudy.tsx lines 22-55). -/
def lessons : List Lesson :=
  [ { id := 1
      title := "自己紹介"
      questions :=
        [ { kind := .videoChoice
            question := "動画を見て、適切な言葉を選んでください。"
            context := none
            options := some ["田中", "山田", "佐藤", "鈴木"]
            correct := .idx 0
            explanation := "動画の人物は「田中」と自己紹介しています。"
            hint := some "動画をもう一度見てみましょう。"
            words := none
            audio := none
            video := some "/videos/self-introduction.mp4"
            sentence := some { pre := some "はじめまして、私は", suf := some "です。" } }
        , { kind := .wordOrder
            question := "単語を並び替えて、正しい文章を作ってください。"
            context := none
            options := none
            correct := .str "私は田中です。"
            explanation := "「私は[名前]です」は基本的な自己紹介の形です。"
            hint := some "「私は」で始まる文章です。"
            words := some [ { text := "です。", order := 3 }
                          , { text := "田中", order := 2 }
                          , { text := "私は", order := 1 } ]
            audio := some "path-to-audio.mp3"
            video := none
            sentence := none } ] } ]

/-- The mutable component state: one field per `useState` hook
(ComprehensiveStudy.tsx lines 60-68), plus `navigated` recording that
`navigate('/')` unmounted the screen. -/
structure SessionState where
  currentLesson : Nat
  currentQuestion : Nat
  selectedAnswer : Option Nat
  showAnswer : Bool
  lives : Int
  showHint : Bool
  score : Int
  orderedWords : List (Nat × Nat × Nat)
  isPlaying : Bool
  navigated : Bool
deriving DecidableEq

/-- Initial state at screen mount (the `useState` initialisers). -/
def initState : SessionState :=
  { currentLesson := 0
    currentQuestion := 0
    selectedAnswer := none
    showAnswer := false
    lives := 3
    showHint := false
    score := 0
    orderedWords := []
    isPlaying := false
    navigated := false }

/-- Placeholder lesson used only to make out-of-range lookup total
(out-of-range access crashes the TS component; it never happens in reach). -/
def emptyLesson : Lesson := { id := 0, title := "", questions := [] }

/-- Placeholder question for out-of-range lookup, same caveat as `emptyLesson`. -/
def emptyQuestion : Question :=
  { kind := .choice, question := "", context := none, options := none
    correct := .idx 0, explanation := "", hint := none, words := none
    audio := none, video := none, sentence := none }

/-- `const lesson = lessons[currentLesson]`. -/
def lessonAt (i : Nat) : Lesson := lessons.getD i emptyLesson

/-- `const question = lesson.questions[currentQuestion]`. -/
def curQ (s : SessionState) : Question :=
  (lessonAt s.currentLesson).questions.getD s.currentQuestion emptyQuestion

/-- `question.options` read with the TS optional chaining default. -/
def optionsOf (q : Question) : List String := q.options.getD []

/-- `question.words` read with the TS optional chaining default. -/
def wordsOf (q : Question) : List Word := q.words.getD []

/-- The JS comparison `answerIndex === question.correct` where `answerIndex`
is a number: true only when `correct` is the number `n` and `n = i`. -/
def jsEqCorrect (i : Nat) (c : CorrectVal) : Bool :=
  match c with
  | .idx n => i == n
  | .str _ => false

/-- `handleAnswer` (lines 105-114): record the selection, reveal the answer,
then score +10 on a correct index or decrement lives on a wrong one. -/
def handleAnswer (s : SessionState) (answerIndex : Nat) : SessionState :=
  { s with
    selectedAnswer := some answerIndex
    showAnswer := true
    score := if jsEqCorrect answerIndex (curQ s).correct then s.score + 10 else s.score
    lives := if jsEqCorrect answerIndex (curQ s).correct then s.lives else s.lives - 1 }

/-- `submitAnswer`: a click on an option button.  The buttons exist only in
the video-choice branch of `renderQuestion` (lines 148-166), one per entry of
`question.options`, and the click is gated by
`onClick={() => !showAnswer && handleAnswer(index)}` plus
`disabled={showAnswer}`. -/
def submitAnswer (s : SessionState) (i : Nat) : SessionState :=
  if (curQ s).kind = .videoChoice ∧ i < (optionsOf (curQ s)).length ∧
      s.showAnswer = false then
    handleAnswer s i
  else s

/-- `handleNext` (lines 73-91): advance the `(lesson, question)` cursor or
navigate away after the last question of the last lesson, then
unconditionally reset `selectedAnswer`, `showAnswer`, `showHint`, `isPlaying`
(and rewind the video).  Note: `orderedWords` is NOT touched here. -/
def handleNext (s : SessionState) : SessionState :=
  let moved :=
    if s.currentQuestion < (lessonAt s.currentLesson).questions.length - 1 then
      { s with currentQuestion := s.currentQuestion + 1 }
    else if s.currentLesson < lessons.length - 1 then
      { s with currentLesson := s.currentLesson + 1, currentQuestion := 0 }
    else
      { s with navigated := true }
  { moved with
    selectedAnswer := none
    showAnswer := false
    showHint := false
    isPlaying := false }

/-- `advance`: a click on the 次へ button, rendered only while
`showAnswer` is true (lines 296-305). -/
def advance (s : SessionState) : SessionState :=
  if s.showAnswer then handleNext s else s

/-- `appendWord`: a click on word button `i` of the current word-order
question (lines 173-194).  The button exists only in the word-order branch,
for `i < question.words.length`, and carries
`disabled={orderedWords.includes(word)}` — an object-identity test, modelled
by membership of the triple `(lesson, question, i)`.  An enabled click pushes
the word onto `orderedWords`. -/
def appendWord (s : SessionState) (i : Nat) : SessionState :=
  let wid : Nat × Nat × Nat := (s.currentLesson, s.currentQuestion, i)
  if (curQ s).kind = .wordOrder ∧ i < (wordsOf (curQ s)).length ∧
      wid ∉ s.orderedWords then
    { s with orderedWords := s.orderedWords ++ [wid] }
  else s

/-- `toggleHint`: the ヒントを見る button, rendered only while
`!showAnswer && question.hint` (lines 282-289); sets `showHint` one-way. -/
def toggleHint (s : SessionState) : SessionState :=
  if s.showAnswer = false ∧ (curQ s).hint.isSome then
    { s with showHint := true }
  else s

/-- `handleVideoPlay` (lines 93-103): the overlay button of the video-choice
branch; `paused` is the observed `videoRef.current.paused`, and `isPlaying`
is set to it (play → true when paused, pause → false otherwise). -/
def togglePlayback (s : SessionState) (paused : Bool) : SessionState :=
  if (curQ s).kind = .videoChoice then { s with isPlaying := paused } else s

/-- `reset`: the game-over もう一度挑戦する handler (lines 218-225); exactly
five setters, nothing else. -/
def resetSession (s : SessionState) : SessionState :=
  { s with
    lives := 3
    score := 0
    currentQuestion := 0
    currentLesson := 0
    orderedWords := [] }

/-- The discrete user/media events the rendered component can receive. -/
inductive Event
  | submit (i : Nat)
  | append (i : Nat)
  | hint
  | playback (paused : Bool)
  | next
  | retry
deriving DecidableEq

/-- One render-and-interact step.  After `navigate('/')` the component is
unmounted, so nothing fires; when `lives === 0` the component returns the
game-over view (lines 211-233) whose only control is the retry button;
otherwise the in-progress view dispatches each event to its handler. -/
def step (s : SessionState) (e : Event) : SessionState :=
  match e with
  | .submit i => if s.navigated then s else if s.lives = 0 then s else submitAnswer s i
  | .append i => if s.navigated then s else if s.lives = 0 then s else appendWord s i
  | .hint => if s.navigated then s else if s.lives = 0 then s else toggleHint s
  | .playback p => if s.navigated then s else if s.lives = 0 then s else togglePlayback s p
  | .next => if s.navigated then s else if s.lives = 0 then s else advance s
  | .retry => if s.navigated then s else if s.lives = 0 then resetSession s else s

/-- The state after a sequence of events starting at screen mount. -/
def run (evs : List Event) : SessionState := evs.foldl step initState

/-- Insertion into a list of words sorted by ascending `order`. -/
def insertWord (w : Word) : List Word → List Word
  | [] => [w]
  | x :: xs => if w.order ≤ x.order then w :: x :: xs else x :: insertWord w xs

/-- Sort words ascending by their `order` field (insertion sort). -/
def sortWords : List Word → List Word
  | [] => []
  | w :: ws => insertWord w (sortWords ws)

/-- Concatenate the `text` fields of a word list, in list order. -/
def concatTexts (ws : List Word) : String :=
  ws.foldl (fun acc w => acc ++ w.text) ""

/-- Content validation of one question: a word-order question must rebuild
its `correct` string from its words sorted by `order`; every other
(choice-like) variant must carry an integer `correct` that indexes into
`options`. -/
def validQ (q : Question) : Bool :=
  match q.kind with
  | .wordOrder =>
    match q.correct with
    | .str c => concatTexts (sortWords (wordsOf q)) == c
    | .idx _ => false
  | _ =>
    match q.correct with
    | .idx n => decide (n < (optionsOf q).length)
    | .str _ => false

/-- C1: a `submitAnswer i` click delivered while the answer is not yet
revealed (on the rendered video-choice option buttons) awards exactly +10
with lives unchanged when `i` equals the question's correct index, and
otherwise decrements lives by exactly 1 with the score unchanged; in both
cases it records `selectedAnswer = i` and sets `answerRevealed`. -/
theorem submit_scores_or_costs_life (s : SessionState) (i : Nat)
    (hn : s.navigated = false) (hl : s.lives ≠ 0)
    (hk : (curQ s).kind = .videoChoice)
    (hi : i < (optionsOf (curQ s)).length)
    (hr : s.showAnswer = false) :
    ((jsEqCorrect i (curQ s).correct = true →
        (step s (.submit i)).score = s.score + 10 ∧
        (step s (.submit i)).lives = s.lives) ∧
     (jsEqCorrect i (curQ s).correct = false →
        (step s (.submit i)).lives = s.lives - 1 ∧
        (step s (.submit i)).score = s.score)) ∧
    (step s (.submit i)).selectedAnswer = some i ∧
    (step s (.submit i)).showAnswer = true := by
  have hstep : step s (.submit i) = handleAnswer s i := by
    simp [step, hn, hl, submitAnswer, hk, hi, hr]
  rw [hstep]
  unfold handleAnswer
  refine ⟨⟨fun hc => ?_, fun hc => ?_⟩, rfl, rfl⟩
  · simp [hc]
  · simp [hc]

/-- C1 witness: at screen mount, submitting the correct option 0 of the
video-choice question yields score 10 and keeps 3 lives. -/
theorem submit_scores_or_costs_life_witness :
    initState.navigated = false ∧ initState.lives ≠ 0 ∧
    (curQ initState).kind = .videoChoice ∧
    0 < (optionsOf (curQ initState)).length ∧
    initState.showAnswer = false ∧
    jsEqCorrect 0 (curQ initState).correct = true ∧
    (step initState (.submit 0)).score = initState.score + 10 ∧
    (step initState (.submit 0)).lives = initState.lives ∧
    (step initState (.submit 0)).selectedAnswer = some 0 ∧
    (step initState (.submit 0)).showAnswer = true := by
  have h := submit_scores_or_costs_life initState 0 rfl (by decide) rfl
    (by decide) rfl
  exact ⟨rfl, by decide, rfl, by decide, rfl, by decide,
    (h.1.1 (by decide)).1, (h.1.1 (by decide)).2, h.2.1, h.2.2⟩

/-- C2: with the answer already revealed, a submit click is a complete no-op
on the session state. -/
theorem submit_noop_when_revealed (s : SessionState) (i : Nat)
    (hr : s.showAnswer = true) : step s (.submit i) = s := by
  unfold step submitAnswer
  simp [hr]

/-- C2 witness: answering wrongly (option 1) reveals the answer, after which
a further submit of option 2 changes nothing. -/
theorem submit_noop_when_revealed_witness :
    (run [.submit 1]).showAnswer = true ∧
    step (run [.submit 1]) (.submit 2) = run [.submit 1] :=
  ⟨by decide, submit_noop_when_revealed (run [.submit 1]) 2 (by decide)⟩

/-- C6: the retry handler restores `lives = 3`, `score = 0`,
`currentLessonIndex = 0`, `currentQuestionIndex = 0` and empty
`orderedWords`, whatever the prior state was. -/
theorem reset_restores_initial_fields (s : SessionState) :
    (resetSession s).lives = 3 ∧ (resetSession s).score = 0 ∧
    (resetSession s).currentLesson = 0 ∧
    (resetSession s).currentQuestion = 0 ∧
    (resetSession s).orderedWords = [] :=
  ⟨rfl, rfl, rfl, rfl, rfl⟩

/-- C9: retry from game over touches only the five reinitialised fields;
`selectedAnswer`, `answerRevealed`, `hintVisible` and `isPlaying` keep the
values they held when the session ended, so a reveal left on by the losing
answer survives into the restarted session. -/
theorem reset_frame_effect (s : SessionState)
    (hn : s.navigated = false) (hl : s.lives = 0) :
    (step s .retry).selectedAnswer = s.selectedAnswer ∧
    (step s .retry).showAnswer = s.showAnswer ∧
    (step s .retry).showHint = s.showHint ∧
    (step s .retry).isPlaying = s.isPlaying ∧
    (step s .retry).lives = 3 ∧ (step s .retry).score = 0 ∧
    (step s .retry).currentLesson = 0 ∧
    (step s .retry).currentQuestion = 0 ∧
    (step s .retry).orderedWords = [] := by
  have h : step s .retry = resetSession s := by
    simp [step, hn, hl]
  rw [h]
  exact ⟨rfl, rfl, rfl, rfl, rfl, rfl, rfl, rfl, rfl⟩

/-- A state as left by losing the last life: reveal still on, answer 2
recorded, no lives left. -/
def lostState : SessionState :=
  { initState with lives := 0, showAnswer := true, selectedAnswer := some 2 }

/-- C9 witness: a game-over state that still shows the losing reveal keeps
`showAnswer = true` across retry while lives are restored to 3. -/
theorem reset_frame_effect_witness :
    lostState.navigated = false ∧ lostState.lives = 0 ∧
    (step lostState .retry).showAnswer = true ∧
    (step lostState .retry).selectedAnswer = some 2 ∧
    (step lostState .retry).lives = 3 := by
  have h := reset_frame_effect lostState rfl rfl
  exact ⟨rfl, rfl, h.2.1, h.1, h.2.2.2.2.1⟩

/-- C8: every word-order question of the hard-coded repository rebuilds its
`correct` string exactly by concatenating its words sorted ascending by
`order`, and every choice-like question carries an integer `correct` that is
a valid index into its `options`. -/
theorem content_repository_valid :
    (lessons.all fun l => l.questions.all validQ) = true := by decide

/-- A session sitting on the first (non-final) question with the answer
revealed and a stale word pick left in `orderedWords`. -/
def staleWordsState : SessionState :=
  { initState with showAnswer := true, selectedAnswer := some 1,
                   orderedWords := [(0, 1, 0)] }

/-- C3 counterexample: from a non-terminal state with the reveal on and a
non-empty `orderedWords`, `advance` does move to the next question and does
clear the four flags, but `orderedWords` stays non-empty — `handleNext`
(lines 73-91) contains no `setOrderedWords([])`. -/
theorem advance_keeps_orderedWords :
    staleWordsState.navigated = false ∧ staleWordsState.lives ≠ 0 ∧
    staleWordsState.showAnswer = true ∧
    staleWordsState.currentQuestion <
      (lessonAt staleWordsState.currentLesson).questions.length - 1 ∧
    (step staleWordsState .next).currentQuestion = 1 ∧
    (step staleWordsState .next).orderedWords ≠ [] := by decide

/-- C3 (amended): a qualifying `advance` from a non-terminal position resets
`selectedAnswer`, `answerRevealed`, `hintVisible` and `isPlaying`, but
leaves `orderedWords` exactly as it was (only `reset` clears it). -/
theorem advance_resets_flags (s : SessionState)
    (hn : s.navigated = false) (hl : s.lives ≠ 0) (ha : s.showAnswer = true)
    (hterm : s.currentQuestion <
               (lessonAt s.currentLesson).questions.length - 1 ∨
             s.currentLesson < lessons.length - 1) :
    (step s .next).selectedAnswer = none ∧
    (step s .next).showAnswer = false ∧
    (step s .next).showHint = false ∧
    (step s .next).isPlaying = false ∧
    (step s .next).orderedWords = s.orderedWords ∧
    (step s .next).navigated = false := by
  have h : step s .next = handleNext s := by
    simp [step, hn, hl, advance, ha]
  rw [h]
  unfold handleNext
  rcases hterm with h1 | h2
  · simp [h1, hn]
  · by_cases h1 : s.currentQuestion <
        (lessonAt s.currentLesson).questions.length - 1
    · simp [h1, hn]
    · simp [h1, h2, hn]

/-- C3 (amended) witness: advancing off the answered first question resets
the flags and keeps the (empty) `orderedWords`. -/
theorem advance_resets_flags_witness :
    (run [.submit 0]).navigated = false ∧ (run [.submit 0]).lives ≠ 0 ∧
    (run [.submit 0]).showAnswer = true ∧
    (run [.submit 0]).currentQuestion <
      (lessonAt (run [.submit 0]).currentLesson).questions.length - 1 ∧
    (step (run [.submit 0]) .next).showAnswer = false ∧
    (step (run [.submit 0]) .next).orderedWords =
      (run [.submit 0]).orderedWords := by
  have h := advance_resets_flags (run [.submit 0]) (by decide) (by decide)
    (by decide) (Or.inl (by decide))
  exact ⟨by decide, by decide, by decide, by decide, h.2.1, h.2.2.2.2.1⟩

/-- Strict lexicographic order on `(lessonIdx, questionIdx)` pairs. -/
def lexLt (a b : Nat × Nat) : Prop :=
  a.1 < b.1 ∨ (a.1 = b.1 ∧ a.2 < b.2)

/-- C5: a qualifying `advance` (reveal on, in-progress screen) increments the
question index when the current question is not the lesson's last, else moves
to the next lesson's question 0 when lessons remain, else navigates away with
the cursor unchanged; in the two progressing cases the cursor strictly
increases lexicographically, and once navigation has happened every further
event is a no-op, so the terminal transition happens exactly once and no
further question data is exposed. -/
theorem advance_progression (s : SessionState)
    (hn : s.navigated = false) (hl : s.lives ≠ 0) (ha : s.showAnswer = true) :
    ((s.currentQuestion < (lessonAt s.currentLesson).questions.length - 1 →
        (step s .next).navigated = false ∧
        (step s .next).currentLesson = s.currentLesson ∧
        (step s .next).currentQuestion = s.currentQuestion + 1 ∧
        lexLt (s.currentLesson, s.currentQuestion)
          ((step s .next).currentLesson, (step s .next).currentQuestion)) ∧
     (¬ s.currentQuestion < (lessonAt s.currentLesson).questions.length - 1 →
      s.currentLesson < lessons.length - 1 →
        (step s .next).navigated = false ∧
        (step s .next).currentLesson = s.currentLesson + 1 ∧
        (step s .next).currentQuestion = 0 ∧
        lexLt (s.currentLesson, s.currentQuestion)
          ((step s .next).currentLesson, (step s .next).currentQuestion)) ∧
     (¬ s.currentQuestion < (lessonAt s.currentLesson).questions.length - 1 →
      ¬ s.currentLesson < lessons.length - 1 →
        (step s .next).navigated = true ∧
        (step s .next).currentLesson = s.currentLesson ∧
        (step s .next).currentQuestion = s.currentQuestion)) ∧
    (∀ (t : SessionState) (e : Event), t.navigated = true → step t e = t) := by
  have h : step s .next = handleNext s := by
    simp [step, hn, hl, advance, ha]
  refine ⟨⟨fun h1 => ?_, fun h1 h2 => ?_, fun h1 h2 => ?_⟩, fun t e ht => ?_⟩
  · rw [h]; unfold handleNext
    simp [h1, hn, lexLt]
  · rw [h]; unfold handleNext
    simp [h1, h2, hn, lexLt]
  · rw [h]; unfold handleNext
    simp [h1, h2]
  · cases e <;> simp [step, ht]

/-- C5 witness: from the answered first question, `advance` moves the cursor
from `(0, 0)` strictly up to `(0, 1)` without navigating away. -/
theorem advance_progression_witness :
    (run [.submit 0]).navigated = false ∧ (run [.submit 0]).lives ≠ 0 ∧
    (run [.submit 0]).showAnswer = true ∧
    (run [.submit 0]).currentQuestion <
      (lessonAt (run [.submit 0]).currentLesson).questions.length - 1 ∧
    (step (run [.submit 0]) .next).navigated = false ∧
    (step (run [.submit 0]) .next).currentQuestion = 1 ∧
    lexLt ((run [.submit 0]).currentLesson, (run [.submit 0]).currentQuestion)
      ((step (run [.submit 0]) .next).currentLesson,
       (step (run [.submit 0]) .next).currentQuestion) := by
  have h := advance_progression (run [.submit 0]) (by decide) (by decide)
    (by decide)
  have h1 := h.1.1 (by decide)
  exact ⟨by decide, by decide, by decide, by decide, h1.1, h1.2.2.1, h1.2.2.2⟩

/-- Single-step preservation of the lives bounds: a step keeps `lives`, or
decrements it from a non-zero value (a wrong answer on the in-progress
screen), or restores it to 3 (retry). -/
lemma step_lives_bounds (s : SessionState) (e : Event)
    (h0 : 0 ≤ s.lives) (h3 : s.lives ≤ 3) :
    0 ≤ (step s e).lives ∧ (step s e).lives ≤ 3 := by
  cases e <;>
    simp only [step, submitAnswer, handleAnswer, appendWord, toggleHint,
      togglePlayback, advance, handleNext, resetSession] <;>
    split_ifs <;> first | (simp_all; omega) | simp_all

/-- The lives bounds hold along any run from any state satisfying them. -/
lemma foldl_lives_bounds :
    ∀ (evs : List Event) (s : SessionState),
      0 ≤ s.lives → s.lives ≤ 3 →
      0 ≤ (evs.foldl step s).lives ∧ (evs.foldl step s).lives ≤ 3 := by
  intro evs
  induction evs with
  | nil => intro s h0 h3; exact ⟨h0, h3⟩
  | cons e evs ih =>
    intro s h0 h3
    have h := step_lives_bounds s e h0 h3
    exact ih (step s e) h.1 h.2

/-- C4: along every event sequence from mount, `lives` stays within 0..3;
and in any state with `lives = 0` the component renders only the game-over
screen, so every event other than retry — in particular every submit — is a
complete no-op on score, lives and all other fields. -/
theorem lives_invariant_and_gameover :
    (∀ evs : List Event, 0 ≤ (run evs).lives ∧ (run evs).lives ≤ 3) ∧
    (∀ (s : SessionState) (e : Event),
       s.lives = 0 → e ≠ .retry → step s e = s) := by
  constructor
  · intro evs
    exact foldl_lives_bounds evs initState (by decide) (by decide)
  · intro s e h0 hr
    cases e <;> simp [step, h0]
    exact absurd rfl hr

/-- A dead session: no lives left. -/
def deadState : SessionState := { initState with lives := 0 }

/-- C4 witness: lives stay within bounds on a concrete run, and at a
concrete lives-0 state a submit changes nothing. -/
theorem lives_invariant_and_gameover_witness :
    deadState.lives = 0 ∧ Event.submit 0 ≠ Event.retry ∧
    step deadState (.submit 0) = deadState ∧
    0 ≤ (run [.submit 1, .next, .submit 1]).lives ∧
    (run [.submit 1, .next, .submit 1]).lives ≤ 3 :=
  ⟨rfl, by decide,
   lives_invariant_and_gameover.2 deadState (.submit 0) rfl (by decide),
   (lives_invariant_and_gameover.1 [.submit 1, .next, .submit 1]).1,
   (lives_invariant_and_gameover.1 [.submit 1, .next, .submit 1]).2⟩

/-- Single-step preservation of distinctness of the picked words. -/
lemma step_nodup (s : SessionState) (e : Event)
    (h : s.orderedWords.Nodup) : (step s e).orderedWords.Nodup := by
  cases e <;>
    simp only [step, submitAnswer, handleAnswer, appendWord, toggleHint,
      togglePlayback, advance, handleNext, resetSession] <;>
    split_ifs <;> simp_all [List.nodup_append]

/-- Distinctness holds along any run from any state satisfying it. -/
lemma foldl_nodup :
    ∀ (evs : List Event) (s : SessionState),
      s.orderedWords.Nodup → (evs.foldl step s).orderedWords.Nodup := by
  intro evs
  induction evs with
  | nil => intro s h; exact h
  | cons e evs ih => intro s h; exact ih (step s e) (step_nodup s e h)

/-- C7: after every event sequence from mount, `orderedWords` holds each
word identity at most once; and a word already picked is never appended
again — its button is disabled, so the append event is a no-op. -/
theorem orderedWords_no_duplicates :
    (∀ evs : List Event, (run evs).orderedWords.Nodup) ∧
    (∀ (s : SessionState) (i : Nat),
       (s.currentLesson, s.currentQuestion, i) ∈ s.orderedWords →
       step s (.append i) = s) := by
  constructor
  · intro evs
    exact foldl_nodup evs initState (by decide)
  · intro s i hmem
    simp [step, appendWord, hmem]

/-- C7 witness: on the word-order question, re-clicking the already picked
word 0 leaves `orderedWords` (and the whole state) unchanged, and a concrete
double-click run stays duplicate-free. -/
theorem orderedWords_no_duplicates_witness :
    ((run [.submit 0, .next, .append 0]).currentLesson,
     (run [.submit 0, .next, .append 0]).currentQuestion, 0) ∈
      (run [.submit 0, .next, .append 0]).orderedWords ∧
    step (run [.submit 0, .next, .append 0]) (.append 0) =
      run [.submit 0, .next, .append 0] ∧
    (run [.submit 0, .next, .append 0, .append 0, .append 1]).orderedWords.Nodup :=
  ⟨by decide,
   orderedWords_no_duplicates.2 (run [.submit 0, .next, .append 0]) 0 (by decide),
   orderedWords_no_duplicates.1 [.submit 0, .next, .append 0, .append 0, .append 1]⟩

/-- An event is a scoring submit in state `s`: the in-progress screen shows
the video-choice options, no reveal yet, and the clicked index is the
question's correct index — exactly the conditions under which `step` runs
the `score + 10` branch of `handleAnswer`. -/
def scoringSubmit (s : SessionState) (e : Event) : Bool :=
  match e with
  | .submit i =>
    !s.navigated && !(decide (s.lives = 0)) &&
    decide ((curQ s).kind = .videoChoice) &&
    decide (i < (optionsOf (curQ s)).length) &&
    !s.showAnswer && jsEqCorrect i (curQ s).correct
  | _ => false

/-- An event is a retry that actually fires: the game-over screen is up. -/
def appliedRetry (s : SessionState) (e : Event) : Bool :=
  match e with
  | .retry => !s.navigated && decide (s.lives = 0)
  | _ => false

/-- `step` paired with a counter of scoring submits, zeroed by an applied
retry: after a run, the counter is the number of correct answers submitted
since the last applied retry (or since mount). -/
def countStep (p : SessionState × Nat) (e : Event) : SessionState × Nat :=
  (step p.1 e,
   if scoringSubmit p.1 e then p.2 + 1
   else if appliedRetry p.1 e then 0
   else p.2)

/-- Number of correct answers submitted since the last reset (or mount)
along an event sequence. -/
def correctSinceReset (evs : List Event) : Nat :=
  (evs.foldl countStep (initState, 0)).2

/-- How one step changes the score: +10 on a scoring submit, zeroed on an
applied retry, unchanged otherwise. -/
lemma step_score_eq (s : SessionState) (e : Event) :
    (step s e).score =
      if scoringSubmit s e then s.score + 10
      else if appliedRetry s e then 0 else s.score := by
  cases e with
  | submit i =>
    simp only [step, submitAnswer, handleAnswer, scoringSubmit, appliedRetry]
    by_cases h1 : s.navigated = true
    · simp [h1]
    · by_cases h2 : s.lives = 0
      · simp [h1, h2]
      · by_cases h3 : (curQ s).kind = .videoChoice
        · by_cases h4 : i < (optionsOf (curQ s)).length
          · by_cases h5 : s.showAnswer = false
            · by_cases h6 : jsEqCorrect i (curQ s).correct = true
              · simp [h1, h2, h3, h4, h5, h6]
              · simp [h1, h2, h3, h4, h5, h6]
            · simp [h1, h2, h3, h4, h5]
          · simp [h1, h2, h3, h4]
        · simp [h1, h2, h3]
  | append i =>
    simp only [step, appendWord, scoringSubmit, appliedRetry]
    split_ifs <;> simp_all
  | hint =>
    simp only [step, toggleHint, scoringSubmit, appliedRetry]
    split_ifs <;> simp_all
  | playback p =>
    simp only [step, togglePlayback, scoringSubmit, appliedRetry]
    split_ifs <;> simp_all
  | next =>
    simp only [step, advance, handleNext, scoringSubmit, appliedRetry]
    split_ifs <;> simp_all
  | retry =>
    simp only [step, resetSession, scoringSubmit, appliedRetry]
    by_cases h1 : s.navigated = true
    · simp [h1]
    · by_cases h2 : s.lives = 0
      · simp [h1, h2]
      · simp [h1, h2]

/-- One counting step preserves `score = 10 * count`. -/
lemma countStep_score (p : SessionState × Nat) (e : Event)
    (h : p.1.score = 10 * (p.2 : Int)) :
    (countStep p e).1.score = 10 * ((countStep p e).2 : Int) := by
  unfold countStep
  by_cases h1 : scoringSubmit p.1 e = true
  · simp only [h1, if_true, step_score_eq, h]
    push_cast
    ring
  · by_cases h2 : appliedRetry p.1 e = true
    · simp [h1, h2, step_score_eq]
    · simp [h1, h2, step_score_eq, h]

/-- The paired fold computes the same state as the plain fold. -/
lemma countStep_fst :
    ∀ (evs : List Event) (p : SessionState × Nat),
      (evs.foldl countStep p).1 = evs.foldl step p.1 := by
  intro evs
  induction evs with
  | nil => intro p; rfl
  | cons e evs ih => intro p; exact ih (countStep p e)

/-- `score = 10 * count` holds along the paired fold. -/
lemma foldl_countStep_score :
    ∀ (evs : List Event) (p : SessionState × Nat),
      p.1.score = 10 * (p.2 : Int) →
      (evs.foldl countStep p).1.score = 10 * ((evs.foldl countStep p).2 : Int) := by
  intro evs
  induction evs with
  | nil => intro p h; exact h
  | cons e evs ih => intro p h; exact ih (countStep p e) (countStep_score p e h)

/-- C10: after every event sequence from mount, the score equals 10 times
the number of correct answers submitted since the last reset (or since
mount); in particular it is a non-negative multiple of 10. -/
theorem score_counts_corrects (evs : List Event) :
    (run evs).score = 10 * (correctSinceReset evs : Int) ∧
    0 ≤ (run evs).score ∧ (10 : Int) ∣ (run evs).score := by
  have hfst := countStep_fst evs (initState, 0)
  have hsc := foldl_countStep_score evs (initState, 0) (by decide)
  have hrun : run evs = (evs.foldl countStep (initState, 0)).1 := by
    rw [hfst]; rfl
  have hmain : (run evs).score = 10 * (correctSinceReset evs : Int) := by
    rw [hrun]; exact hsc
  refine ⟨hmain, ?_, ?_⟩
  · rw [hmain]
    positivity
  · rw [hmain]
    exact Dvd.intro _ rfl
